import Mathlib

/-!
Shallow embedding of the conversation / context-window management subsystem of
the `on-device-slm` repository:

* `backend/conversation_manager.py` — `ChatMessage`, `Conversation`,
  `ConversationManager` (create / add_message / trim_conversation /
  update_conversation_title / export_conversation / import_conversation);
* `backend/main.py` — the `is_model_available` helper;
* `examples/token_management.py` — `TokenManager.estimate_tokens` and
  `TokenManager.check_prompt_size`;
* `config/model_manager.py` — `ModelConfigManager` (load_config and the
  catalog accessors).

Python `datetime` values are embedded as records of calendar fields;
`datetime.isoformat` / `datetime.fromisoformat` are embedded as printing to /
parsing from the exact textual format `isoformat` emits.  Python floats
(`0.75 * max_tokens`, `context_limit * 0.8`) are embedded as rationals: the
constants 0.75 and 100 are exact binary floats, and the products and
comparisons the code performs on them round to the same outcomes as exact
rational arithmetic at every input size the program handles, so `ℚ` is a
faithful model.  `datetime.now()` and `uuid.uuid4()` are nondeterministic
inputs and appear as explicit arguments.  Python exceptions are embedded with
`Option` / `Except`.
-/

namespace OnDevice

/-- Embedding of a Python `datetime.datetime` value as its calendar fields. -/
structure DateTime where
  year : Nat
  month : Nat
  day : Nat
  hour : Nat
  minute : Nat
  second : Nat
  microsecond : Nat
deriving DecidableEq

/-- The range invariants Python's `datetime` enforces on its fields
(`MINYEAR = 1`, `MAXYEAR = 9999`, and the usual calendar bounds). -/
def DateTime.Valid (d : DateTime) : Prop :=
  1 ≤ d.year ∧ d.year ≤ 9999 ∧ 1 ≤ d.month ∧ d.month ≤ 12 ∧
  1 ≤ d.day ∧ d.day ≤ 31 ∧ d.hour ≤ 23 ∧ d.minute ≤ 59 ∧
  d.second ≤ 59 ∧ d.microsecond ≤ 999999

instance (d : DateTime) : Decidable d.Valid := by
  unfold DateTime.Valid; infer_instance

/-- A strictly monotone linearisation of valid datetimes, used to state
ordering facts about timestamps (`updated_at >= created_at`). -/
def DateTime.key (d : DateTime) : Nat :=
  (((((d.year * 13 + d.month) * 32 + d.day) * 24 + d.hour) * 60 + d.minute)
      * 60 + d.second) * 1000000 + d.microsecond

/-- The character for a decimal digit, as Python's string formatting emits it. -/
def digitChar (n : Nat) : Char := Char.ofNat (48 + n)

/-- The zero-padded `w`-digit decimal rendering of `n` (Python's `%0wd`),
most significant digit first. -/
def padDigits : Nat → Nat → List Char
  | 0, _ => []
  | w + 1, n => digitChar (n / 10 ^ w) :: padDigits w (n % 10 ^ w)

/-- `padDigits` packaged as a string. -/
def padNum (w n : Nat) : String := String.mk (padDigits w n)

/-- Embedding of Python's `datetime.isoformat()`:
`YYYY-MM-DDTHH:MM:SS` with `.ffffff` appended exactly when the microsecond
field is nonzero. -/
def DateTime.isoformat (d : DateTime) : String :=
  padNum 4 d.year ++ "-" ++ padNum 2 d.month ++ "-" ++ padNum 2 d.day ++ "T" ++
  padNum 2 d.hour ++ ":" ++ padNum 2 d.minute ++ ":" ++ padNum 2 d.second ++
  (if d.microsecond = 0 then "" else "." ++ padNum 6 d.microsecond)

/-- Reads one decimal digit character. -/
def readDigit (c : Char) : Option Nat :=
  if 48 ≤ c.toNat ∧ c.toNat ≤ 57 then some (c.toNat - 48) else none

/-- Reads exactly `w` decimal digit characters into a number (accumulator
style), returning the rest of the input. -/
def readFixed : Nat → Nat → List Char → Option (Nat × List Char)
  | 0, acc, cs => some (acc, cs)
  | _ + 1, _, [] => none
  | w + 1, acc, c :: cs =>
    match readDigit c with
    | some d => readFixed w (acc * 10 + d) cs
    | none => none

/-- Consumes one expected separator character. -/
def expect (ch : Char) : List Char → Option (List Char)
  | [] => none
  | c :: cs => if c = ch then some cs else none

/-- Parses the character stream of `DateTime.isoformat` output. -/
def parseIso (cs : List Char) : Option DateTime := do
  let (y, c1) ← readFixed 4 0 cs
  let c2 ← expect '-' c1
  let (mo, c3) ← readFixed 2 0 c2
  let c4 ← expect '-' c3
  let (da, c5) ← readFixed 2 0 c4
  let c6 ← expect 'T' c5
  let (h, c7) ← readFixed 2 0 c6
  let c8 ← expect ':' c7
  let (mi, c9) ← readFixed 2 0 c8
  let c10 ← expect ':' c9
  let (s, c11) ← readFixed 2 0 c10
  match c11 with
  | [] => some ⟨y, mo, da, h, mi, s, 0⟩
  | c :: rest =>
    if c = '.' then do
      let (us, c12) ← readFixed 6 0 rest
      match c12 with
      | [] => some ⟨y, mo, da, h, mi, s, us⟩
      | _ => none
    else none

/-- Embedding of Python's `datetime.fromisoformat` on the format that
`isoformat` emits; a malformed string (Python: `ValueError`) is `none`. -/
def DateTime.fromisoformat (s : String) : Option DateTime := parseIso s.toList

/-- A message's `metadata` dictionary (`Optional[Dict[str, Any]]` in the
source); it is carried through every operation unchanged, so string pairs
embed it without loss of generality. -/
abbrev Metadata := List (String × String)

/-- `ChatMessage` dataclass of `backend/conversation_manager.py`. -/
structure ChatMessage where
  id : String
  role : String
  content : String
  timestamp : DateTime
  token_count : Option Int := none
  metadata : Option Metadata := none
deriving DecidableEq

/-- The dictionary `ChatMessage.to_dict` produces: `asdict(self)` with the
timestamp replaced by its `isoformat` string. -/
structure MessageDict where
  id : String
  role : String
  content : String
  timestamp : String
  token_count : Option Int
  metadata : Option Metadata
deriving DecidableEq

/-- `ChatMessage.to_dict`. -/
def ChatMessage.to_dict (m : ChatMessage) : MessageDict :=
  ⟨m.id, m.role, m.content, m.timestamp.isoformat, m.token_count, m.metadata⟩

/-- `ChatMessage.from_dict`: parses the timestamp back (raising, i.e. `none`,
on a malformed string) and rebuilds the dataclass. -/
def ChatMessage.from_dict (d : MessageDict) : Option ChatMessage := do
  let ts ← DateTime.fromisoformat d.timestamp
  some ⟨d.id, d.role, d.content, ts, d.token_count, d.metadata⟩

/-- `Conversation` dataclass of `backend/conversation_manager.py`. -/
structure Conversation where
  id : String
  title : String
  model_id : String
  messages : List ChatMessage
  created_at : DateTime
  updated_at : DateTime
  total_tokens : Int := 0
  max_tokens : Int := 8192
  system_prompt : Option String := none
deriving DecidableEq

/-- The dictionary `Conversation.to_dict` produces. -/
structure ConversationDict where
  id : String
  title : String
  model_id : String
  messages : List MessageDict
  created_at : String
  updated_at : String
  total_tokens : Int
  max_tokens : Int
  system_prompt : Option String
deriving DecidableEq

/-- `Conversation.to_dict`. -/
def Conversation.to_dict (c : Conversation) : ConversationDict :=
  ⟨c.id, c.title, c.model_id, c.messages.map ChatMessage.to_dict,
   c.created_at.isoformat, c.updated_at.isoformat,
   c.total_tokens, c.max_tokens, c.system_prompt⟩

/-- `Conversation.from_dict`. -/
def Conversation.from_dict (d : ConversationDict) : Option Conversation := do
  let ca ← DateTime.fromisoformat d.created_at
  let ua ← DateTime.fromisoformat d.updated_at
  let msgs ← d.messages.mapM ChatMessage.from_dict
  some ⟨d.id, d.title, d.model_id, msgs, ca, ua,
        d.total_tokens, d.max_tokens, d.system_prompt⟩

/-- Python truthiness of an `Optional[int]`: `None` and `0` are falsy. -/
def pyTruthy : Option Int → Bool
  | none => false
  | some n => !(n == 0)

/-- `ConversationManager.default_system_prompt` (the literal from
`__init__`). -/
def default_system_prompt : String :=
  "You are a helpful AI assistant running locally on the user\'s device. You are knowledgeable, friendly, and concise. You can help with a wide variety of tasks including:\n- Answering questions and providing information\n- Writing and creative tasks  \n- Analysis and reasoning\n- Coding and technical help\n- General conversation\n\nRespond naturally and be helpful while being mindful of context length."

/-- The system prompt `create_conversation` ends up using: Python's
`if not system_prompt: system_prompt = self.default_system_prompt` replaces
both an omitted prompt and an empty string (falsy) by the default. -/
def effective_system_prompt : Option String → String
  | none => default_system_prompt
  | some s => if s = "" then default_system_prompt else s

/-- `now.strftime(\x27%Y-%m-%d %H:%M\x27)`, used for the generated title. -/
def strftime_title (d : DateTime) : String :=
  padNum 4 d.year ++ "-" ++ padNum 2 d.month ++ "-" ++ padNum 2 d.day ++ " " ++
  padNum 2 d.hour ++ ":" ++ padNum 2 d.minute

/-- `ConversationManager.create_conversation`.  The fresh uuids and the
`datetime.now()` value are nondeterministic inputs and appear as the
`conversation_id`, `message_id` and `now` arguments; the function returns the
conversation it stores under `conversation_id`. -/
def create_conversation (model_id : String) (title : Option String)
    (system_prompt : Option String) (max_tokens : Int)
    (conversation_id message_id : String) (now : DateTime) : Conversation :=
  let title : String :=
    match title with
    | none => "Chat " ++ strftime_title now
    | some t => if t = "" then "Chat " ++ strftime_title now else t
  let sp := effective_system_prompt system_prompt
  let base : Conversation :=
    { id := conversation_id, title := title, model_id := model_id,
      messages := [], created_at := now, updated_at := now,
      max_tokens := max_tokens, system_prompt := some sp }
  if sp = "" then base
  else { base with
         messages := [{ id := message_id, role := "system", content := sp,
                        timestamp := now }] }

/-- `ConversationManager.add_message` on the conversation it mutates (the
manager-level `ValueError` on an unknown id is outside this claim's scope).
The fresh uuid and the two `datetime.now()` calls (message timestamp, then
`updated_at`) are the `message_id`, `ts` and `now` arguments. -/
def add_message (c : Conversation) (role content : String)
    (token_count : Option Int) (metadata : Option Metadata)
    (message_id : String) (ts now : DateTime) : Conversation × ChatMessage :=
  let message : ChatMessage :=
    { id := message_id, role := role, content := content, timestamp := ts,
      token_count := token_count, metadata := metadata }
  let c1 := { c with messages := c.messages ++ [message], updated_at := now }
  let c2 :=
    if pyTruthy token_count then
      { c1 with total_tokens := c1.total_tokens + token_count.getD 0 }
    else c1
  (c2, message)

/-- `ConversationManager.update_conversation_title` on the conversation it
mutates. -/
def update_conversation_title (c : Conversation) (title : String)
    (now : DateTime) : Conversation :=
  { c with title := title, updated_at := now }

/-- The `while current_tokens > target_tokens and len(other_messages) > 2`
loop of `trim_conversation`: pops the head (oldest) message, subtracting its
token count when truthy, and counts the removals. -/
def trimLoop (target : ℚ) : Int → List ChatMessage → Int × List ChatMessage × Nat
  | current, [] => (current, [], 0)
  | current, m :: rest =>
    if target < (current : ℚ) ∧ 2 < (m :: rest).length then
      let current' :=
        if pyTruthy m.token_count then current - m.token_count.getD 0
        else current
      let r := trimLoop target current' rest
      (r.1, r.2.1, r.2.2 + 1)
    else (current, m :: rest, 0)

/-- `ConversationManager.trim_conversation` on the conversation it mutates:
default target `max_tokens * 0.75`, no-op when already at/under target, else
split system / non-system, run the eviction loop on the non-system messages,
and rebuild.  Returns the new conversation and the removal count. -/
def trim_conversation (c : Conversation) (target_tokens : Option ℚ) :
    Conversation × Nat :=
  let target := target_tokens.getD ((c.max_tokens : ℚ) * (3 / 4))
  if (c.total_tokens : ℚ) ≤ target then (c, 0)
  else
    let r := trimLoop target c.total_tokens
      (c.messages.filter (fun m => m.role != "system"))
    ({ c with
       messages := c.messages.filter (fun m => m.role == "system") ++ r.2.1,
       total_tokens := r.1 },
     r.2.2)

/-- The in-memory store `ConversationManager.conversations` (a Python dict in
insertion order). -/
abbrev ConvStore := List (String × Conversation)

/-- Dictionary lookup `self.conversations.get(conversation_id)`. -/
def storeGet (s : ConvStore) (k : String) : Option Conversation :=
  (s.find? (fun p => p.1 == k)).map Prod.snd

/-- Dictionary assignment `self.conversations[k] = v` (replaces in place or
appends). -/
def storeInsert (s : ConvStore) (k : String) (v : Conversation) : ConvStore :=
  if s.any (fun p => p.1 == k) then
    s.map (fun p => if p.1 == k then (k, v) else p)
  else s ++ [(k, v)]

/-- `ConversationManager.export_conversation`: the stored conversation's
`to_dict`, or `None` when the id is unknown. -/
def export_conversation (s : ConvStore) (conversation_id : String) :
    Option ConversationDict :=
  (storeGet s conversation_id).map Conversation.to_dict

/-- `ConversationManager.import_conversation`: rebuilds the conversation from
the snapshot (propagating `from_dict`'s failure) and stores it under its own
id, returning that id and the new store. -/
def import_conversation (s : ConvStore) (d : ConversationDict) :
    Option (String × ConvStore) :=
  (Conversation.from_dict d).map (fun c => (c.id, storeInsert s c.id c))

/-- A message's contribution to the token sum: unknown count contributes 0. -/
def tokenOr0 (m : ChatMessage) : Int := m.token_count.getD 0

/-- Sum of the known token counts of a message list. -/
def sumTokens (ms : List ChatMessage) : Int := (ms.map tokenOr0).sum

/-- Python `s.startswith(pre)`: `pre`'s characters are a prefix of `s`'s. -/
def pyStartsWith (s pre : String) : Bool := pre.toList.isPrefixOf s.toList

/-- Python `":" in s`: the string contains a colon. -/
def pyHasColon (s : String) : Bool := s.toList.contains ':'

/-- Python `s.split(":")[0]`: the characters before the first colon (the
whole string when there is none). -/
def pySplitColonHead (s : String) : String :=
  String.mk (s.toList.takeWhile (fun c => !(c == ':')))

/-- The `for ollama_name in ollama_names` loop of `is_model_available` in
`backend/main.py`: per name, branch (3) `ollama_name.startswith(model_id + ":")`
then branch (4) `":" in model_id and ollama_name == base_name + ":latest"`
with `base_name = model_id.split(":")[0]`. -/
def availLoop (model_id : String) : List String → Bool
  | [] => false
  | name :: rest =>
    if pyStartsWith name (model_id ++ ":") then true
    else if pyHasColon model_id &&
        (name == pySplitColonHead model_id ++ ":latest") then true
    else availLoop model_id rest

/-- `is_model_available` of `backend/main.py` (defined identically at both
occurrences): exact match, then `model_id + ":latest"`, then the per-name
loop. -/
def is_model_available (model_id : String) (ollama_names : List String) : Bool :=
  if ollama_names.contains model_id then true
  else if ollama_names.contains (model_id ++ ":latest") then true
  else availLoop model_id ollama_names

/-- `TokenManager.estimate_tokens` of `examples/token_management.py`:
`len(text) // 4`. -/
def estimate_tokens (text : String) : Nat := text.length / 4

/-- The dictionary `TokenManager.check_prompt_size` returns. -/
structure PromptCheck where
  estimated_tokens : Nat
  context_limit : Nat
  fits : Bool
  usage_percent : ℚ
  tokens_remaining : Int
deriving DecidableEq

/-- `TokenManager.check_prompt_size`.  `get_context_limit` queries the daemon
over the network, so the context limit is an explicit argument here; the
float constants 0.8 and 100 and the division are embedded as exact rationals
(the float comparison `estimated < limit * 0.8` decides identically to the
rational one for every representable limit). -/
def check_prompt_size (context_limit : Nat) (prompt : String) : PromptCheck :=
  let estimated := estimate_tokens prompt
  { estimated_tokens := estimated
    context_limit := context_limit
    fits := decide ((estimated : ℚ) < (context_limit : ℚ) * (4 / 5))
    usage_percent := ((estimated : ℚ) / (context_limit : ℚ)) * 100
    tokens_remaining := (context_limit : Int) - (estimated : Int) }

/-- One entry of the `available_models` list in the catalog's JSON data
(`config/model_manager.py`); `enabled` and `priority` may be absent from the
stored dictionary, hence optional. -/
structure ModelData where
  id : String
  name : String
  description : String
  category : String
  size_gb : ℚ
  context_window : Int
  recommended_use : List String
  install_command : String
  enabled : Option Bool
  priority : Option Int
deriving DecidableEq

/-- The `ModelConfig` dataclass. -/
structure ModelConfig where
  id : String
  name : String
  description : String
  category : String
  size_gb : ℚ
  context_window : Int
  recommended_use : List String
  install_command : String
  enabled : Bool
  priority : Int
deriving DecidableEq

/-- `ModelConfig(**model_data)`: absent `enabled` / `priority` keys fall to
the dataclass defaults `True` / `1`. -/
def ModelData.toModelConfig (d : ModelData) : ModelConfig :=
  ⟨d.id, d.name, d.description, d.category, d.size_gb, d.context_window,
   d.recommended_use, d.install_command, d.enabled.getD true, d.priority.getD 1⟩

/-- One entry of the `categories` map. -/
structure CategoryInfo where
  name : String
  description : String
deriving DecidableEq

/-- The `config` settings block of the catalog JSON; every key is read with
`.get` and a default, hence optional. -/
structure ConfigSettings where
  auto_enable_available : Option Bool
  show_disabled_models : Option Bool
  max_models_shown : Option Int
  sort_by : Option String
deriving DecidableEq

/-- The parsed catalog JSON (`self._config_data` when not `None`); every key
the code reads with `.get` and a default is optional. -/
structure ConfigData where
  available_models : Option (List ModelData)
  default_model : Option String
  categories : Option (List (String × CategoryInfo))
  config : Option ConfigSettings
deriving DecidableEq

/-- `ModelConfigManager._get_default_config`, the built-in default catalog
(the literal from the source). -/
def default_config : ConfigData :=
  { available_models := some
      [{ id := "llama3.2:3b", name := "Llama 3.2 3B",
         description := "Fast, efficient model", category := "general",
         size_gb := 2, context_window := 8192,
         recommended_use := ["chat", "qa"],
         install_command := "ollama pull llama3.2:3b",
         enabled := some true, priority := some 1 }]
    default_model := some "llama3.2:3b"
    categories := some
      [("general", { name := "General Purpose",
                     description := "General chat models" })]
    config := some
      { auto_enable_available := some true, show_disabled_models := some false,
        max_models_shown := some 10, sort_by := some "priority" } }

/-- `ModelConfigManager` state: the configured path and `self._config_data`,
which is `None` until a successful load assigns it. -/
structure ModelConfigManager where
  config_path : String
  config_data : Option ConfigData
deriving DecidableEq

/-- Outcome of reading the backing configuration store. -/
inductive ReadResult
  | ok (d : ConfigData)
  | fileNotFound
  | jsonDecodeError
deriving DecidableEq

/-- The Python exceptions the catalog accessors can raise. -/
inductive PyError
  | attributeError
deriving DecidableEq

/-- `ModelConfigManager.load_config`: on success it assigns
`self._config_data` and returns it; on `FileNotFoundError` or
`json.JSONDecodeError` it prints and RETURNS the default catalog without
assigning `self._config_data`. -/
def load_config (m : ModelConfigManager) (r : ReadResult) :
    ModelConfigManager × ConfigData :=
  match r with
  | .ok d => ({ m with config_data := some d }, d)
  | .fileNotFound => (m, default_config)
  | .jsonDecodeError => (m, default_config)

/-- `ModelConfigManager.__init__`: sets `_config_data = None`, calls
`load_config` and DISCARDS its return value. -/
def initManager (path : String) (r : ReadResult) : ModelConfigManager :=
  (load_config { config_path := path, config_data := none } r).1

/-- Python `needle in haystack` on strings: contiguous substring test. -/
def pyInStr (needle hay : String) : Bool :=
  hay.toList.tails.any (fun t => needle.toList.isPrefixOf t)

/-- `ModelConfigManager.get_available_models`: reading any key of
`self._config_data` raises `AttributeError` when it is `None` (no attribute
`get` on `NoneType`); otherwise filter by `enabled` / the Ollama substring
check, build the dataclasses and sort by the configured key. -/
def get_available_models (m : ModelConfigManager) (enabled_only : Bool)
    (available_in_ollama : Option (List String)) :
    Except PyError (List ModelConfig) :=
  match m.config_data with
  | none => .error .attributeError
  | some d =>
    let kept := (d.available_models.getD []).filter (fun md =>
      (!(enabled_only && !(md.enabled.getD true))) &&
      (match available_in_ollama with
       | none => true
       | some avail => avail.any (fun a => pyInStr md.id a)))
    let models := kept.map ModelData.toModelConfig
    let sort_by :=
      ((d.config.getD ⟨none, none, none, none⟩).sort_by).getD "priority"
    if sort_by = "priority" then
      .ok (models.mergeSort (fun a b => a.priority ≤ b.priority))
    else if sort_by = "name" then
      .ok (models.mergeSort (fun a b => a.name ≤ b.name))
    else .ok models

/-- `ModelConfigManager.get_enabled_models`. -/
def get_enabled_models (m : ModelConfigManager) :
    Except PyError (List ModelConfig) :=
  get_available_models m true none

/-- `ModelConfigManager.get_model_by_id`. -/
def get_model_by_id (m : ModelConfigManager) (model_id : String) :
    Except PyError (Option ModelConfig) :=
  match m.config_data with
  | none => .error .attributeError
  | some d =>
    .ok (((d.available_models.getD []).find? (fun md => md.id == model_id)).map
      ModelData.toModelConfig)

/-- `ModelConfigManager.get_default_model`. -/
def get_default_model (m : ModelConfigManager) : Except PyError String :=
  match m.config_data with
  | none => .error .attributeError
  | some d => .ok (d.default_model.getD "llama3.2:3b")

/-- Spec-side twin of `trimLoop`, written from the claim's wording: remove
oldest-first, subtract each removed message's token count treating an unknown
count as 0, stop as soon as the running total is at/under the target or only
2 non-system messages remain. -/
def trimLoopSpec (target : ℚ) : Int → List ChatMessage → Int × List ChatMessage × Nat
  | running, [] => (running, [], 0)
  | running, m :: rest =>
    if (running : ℚ) ≤ target ∨ (m :: rest).length ≤ 2 then (running, m :: rest, 0)
    else
      let r := trimLoopSpec target (running - tokenOr0 m) rest
      (r.1, r.2.1, r.2.2 + 1)

/-- Spec-side twin of `trim_conversation`, written from the claim's wording:
target defaults to `0.75 * max_tokens`; no-op returning 0 when
`total_tokens <= target`; otherwise evict via `trimLoopSpec`, rebuild as all
system messages followed by the remaining non-system messages in their
original relative order, set `total_tokens` to the running total and return
the number of messages removed. -/
def trim_spec (c : Conversation) (target_tokens : Option ℚ) :
    Conversation × Nat :=
  let target := target_tokens.getD ((3 / 4 : ℚ) * (c.max_tokens : ℚ))
  if (c.total_tokens : ℚ) ≤ target then (c, 0)
  else
    let r := trimLoopSpec target c.total_tokens
      (c.messages.filter (fun m => m.role != "system"))
    ({ c with
       messages := c.messages.filter (fun m => m.role == "system") ++ r.2.1,
       total_tokens := r.1 },
     r.2.2)

/-- The arguments of one `add_message` call (including its nondeterministic
uuid and the two `datetime.now()` readings). -/
structure AddCall where
  role : String
  content : String
  token_count : Option Int
  metadata : Option Metadata
  message_id : String
  ts : DateTime
  now : DateTime

/-- Applies one `add_message` call to a conversation, keeping the
conversation. -/
def applyAdd (c : Conversation) (a : AddCall) : Conversation :=
  (add_message c a.role a.content a.token_count a.metadata a.message_id
    a.ts a.now).1

/-- Applies a sequence of `add_message` calls in order. -/
def applyAdds (c : Conversation) (calls : List AddCall) : Conversation :=
  calls.foldl applyAdd c

/-- All timestamps stored in a conversation satisfy Python's `datetime`
range invariants. -/
def Conversation.ValidTimes (c : Conversation) : Prop :=
  c.created_at.Valid ∧ c.updated_at.Valid ∧ ∀ m ∈ c.messages, m.timestamp.Valid

instance (c : Conversation) : Decidable c.ValidTimes := by
  unfold Conversation.ValidTimes; infer_instance

/-- A 4000-character prompt, for the worked `check_prompt_size` example. -/
def examplePrompt : String := String.mk (List.replicate 4000 'a')

/-- A fixed sample timestamp for concrete witnesses. -/
def d0 : DateTime := ⟨2024, 1, 1, 12, 0, 0, 0⟩

/-- A later sample timestamp (with a nonzero microsecond field). -/
def d1 : DateTime := ⟨2024, 1, 2, 9, 30, 15, 250000⟩

/-- A sample message for concrete witnesses. -/
def mkMsg (i role : String) (tc : Option Int) : ChatMessage :=
  { id := i, role := role, content := "hello", timestamp := d0,
    token_count := tc, metadata := none }

/-- A concrete conversation over budget: one system message and three
non-system messages of 100 tokens each. -/
def trimDemo : Conversation :=
  { id := "conv-1", title := "Chat 2024-01-01 12:00", model_id := "llama3.2:3b",
    messages := [mkMsg "m0" "system" none, mkMsg "m1" "user" (some 100),
                 mkMsg "m2" "assistant" (some 100), mkMsg "m3" "user" (some 100)],
    created_at := d0, updated_at := d0, total_tokens := 300,
    max_tokens := 8192, system_prompt := some "p" }

/-- A sample sequence of `add_message` calls (known, unknown and zero token
counts) for the token-accounting witness. -/
def addCallsDemo : List AddCall :=
  [{ role := "user", content := "hi", token_count := some 5, metadata := none,
     message_id := "w1", ts := d0, now := d0 },
   { role := "assistant", content := "hello", token_count := none,
     metadata := none, message_id := "w2", ts := d0, now := d0 },
   { role := "user", content := "ok", token_count := some 0, metadata := none,
     message_id := "w3", ts := d1, now := d1 }]

/-- A small valid conversation for the export/import witness. -/
def roundtripDemo : Conversation :=
  { id := "conv-2", title := "Chat 2024-01-02 09:30", model_id := "mistral:7b",
    messages := [{ id := "m0", role := "system", content := "be brief",
                   timestamp := d0 },
                 { id := "m1", role := "user", content := "hi",
                   timestamp := d1, token_count := some 7,
                   metadata := some [("source", "test")] }],
    created_at := d0, updated_at := d1, total_tokens := 7,
    max_tokens := 4096, system_prompt := some "be brief" }

/-- A one-conversation store for the export/import witness. -/
def storeDemo : ConvStore := [("conv-2", roundtripDemo)]

/-- The code's `if removed_message.token_count: current -= token_count` step
equals the spec's "subtract, treating an unknown count as 0": when the count
is `None` or `0` both leave the total unchanged. -/
theorem pyUpdate_eq (cur : Int) (m : ChatMessage) :
    (if pyTruthy m.token_count then cur - m.token_count.getD 0 else cur) =
      cur - tokenOr0 m := by
  cases h : m.token_count with
  | none => simp [pyTruthy, tokenOr0, h]
  | some n => by_cases hn : n = 0 <;> simp [pyTruthy, tokenOr0, h, hn]

/-- The eviction loop of the code and the one transcribed from the spec's
wording agree everywhere. -/
theorem trimLoop_eq_spec (t : ℚ) : ∀ (cur : Int) (ms : List ChatMessage),
    trimLoop t cur ms = trimLoopSpec t cur ms := by
  intro cur ms
  induction ms generalizing cur with
  | nil => rfl
  | cons m rest ih =>
    by_cases h : t < (cur : ℚ) ∧ 2 < (m :: rest).length
    · have h' : ¬((cur : ℚ) ≤ t ∨ (m :: rest).length ≤ 2) := by
        rw [not_or]
        exact ⟨not_le.mpr h.1, not_le.mpr h.2⟩
      simp only [trimLoop, trimLoopSpec]
      rw [if_pos h, if_neg h']
      simp only [pyUpdate_eq, ih]
    · have h' : (cur : ℚ) ≤ t ∨ (m :: rest).length ≤ 2 := by
        rcases not_and_or.mp h with h1 | h2
        · exact Or.inl (le_of_not_lt h1)
        · exact Or.inr (Nat.le_of_not_lt h2)
      simp only [trimLoop, trimLoopSpec]
      rw [if_pos h', if_neg h]

/-- The eviction loop removes from the front only: the kept list is a `drop`
of the input, and the removal count is at most the input length. -/
theorem trimLoop_drop (t : ℚ) : ∀ (cur : Int) (ms : List ChatMessage),
    (trimLoop t cur ms).2.1 = ms.drop (trimLoop t cur ms).2.2 ∧
    (trimLoop t cur ms).2.2 ≤ ms.length := by
  intro cur ms
  induction ms generalizing cur with
  | nil => simp [trimLoop]
  | cons m rest ih =>
    by_cases h : t < (cur : ℚ) ∧ 2 < (m :: rest).length
    · simp only [trimLoop]
      rw [if_pos h]
      refine ⟨?_, ?_⟩
      · simpa using (ih _).1
      · simpa using Nat.succ_le_succ (ih _).2
    · simp only [trimLoop]
      rw [if_neg h]
      simp

/-- The eviction loop keeps at least `min 2 (input length)` messages. -/
theorem trimLoop_min_len (t : ℚ) : ∀ (cur : Int) (ms : List ChatMessage),
    min 2 ms.length ≤ (trimLoop t cur ms).2.1.length := by
  intro cur ms
  induction ms generalizing cur with
  | nil => simp [trimLoop]
  | cons m rest ih =>
    by_cases h : t < (cur : ℚ) ∧ 2 < (m :: rest).length
    · simp only [trimLoop]
      rw [if_pos h]
      have h2 : 2 ≤ rest.length := by
        have := h.2
        simp only [List.length_cons] at this
        omega
      have hih := ih (if pyTruthy m.token_count then cur - m.token_count.getD 0 else cur)
      simp only [List.length_cons]
      omega
    · simp only [trimLoop]
      rw [if_neg h]
      exact min_le_right _ _

/-- When the eviction loop stops, either the running total is at/under the
target or at most 2 messages remain. -/
theorem trimLoop_stop (t : ℚ) : ∀ (cur : Int) (ms : List ChatMessage),
    ((trimLoop t cur ms).1 : ℚ) ≤ t ∨ (trimLoop t cur ms).2.1.length ≤ 2 := by
  intro cur ms
  induction ms generalizing cur with
  | nil => right; simp [trimLoop]
  | cons m rest ih =>
    by_cases h : t < (cur : ℚ) ∧ 2 < (m :: rest).length
    · simp only [trimLoop]
      rw [if_pos h]
      simpa using ih _
    · simp only [trimLoop]
      rw [if_neg h]
      rcases not_and_or.mp h with h1 | h2
      · exact Or.inl (le_of_not_lt h1)
      · exact Or.inr (by simpa using Nat.le_of_not_lt h2)

/-- The eviction loop does nothing when its entry condition fails. -/
theorem trimLoop_noop (t : ℚ) (cur : Int) (ms : List ChatMessage)
    (h : ¬(t < (cur : ℚ) ∧ 2 < ms.length)) :
    trimLoop t cur ms = (cur, ms, 0) := by
  cases ms with
  | nil => rfl
  | cons m rest =>
    simp only [trimLoop]
    rw [if_neg h]

/-- Re-filtering a rebuilt `[system...] ++ remainder` list for system
messages returns exactly the system messages. -/
theorem rebuild_filter_sys (l rem : List ChatMessage)
    (hrem : ∀ m ∈ rem, (m.role != "system") = true) :
    (l.filter (fun m => m.role == "system") ++ rem).filter
        (fun m => m.role == "system") =
      l.filter (fun m => m.role == "system") := by
  have h1 : (l.filter (fun m => m.role == "system")).filter
      (fun m => m.role == "system") = l.filter (fun m => m.role == "system") :=
    List.filter_eq_self.mpr (fun m hm => (List.mem_filter.mp hm).2)
  have h2 : rem.filter (fun m => m.role == "system") = [] := by
    refine List.filter_eq_nil_iff.mpr ?_
    intro m hm
    have hb := hrem m hm
    simp only [bne, Bool.not_eq_true'] at hb
    simp [hb]
  rw [List.filter_append, h1, h2, List.append_nil]

/-- Re-filtering a rebuilt `[system...] ++ remainder` list for non-system
messages returns exactly the remainder. -/
theorem rebuild_filter_nonsys (l rem : List ChatMessage)
    (hrem : ∀ m ∈ rem, (m.role != "system") = true) :
    (l.filter (fun m => m.role == "system") ++ rem).filter
        (fun m => m.role != "system") = rem := by
  have h1 : (l.filter (fun m => m.role == "system")).filter
      (fun m => m.role != "system") = [] := by
    refine List.filter_eq_nil_iff.mpr ?_
    intro m hm
    have hb := (List.mem_filter.mp hm).2
    simp [bne, hb]
  have h2 : rem.filter (fun m => m.role != "system") = rem :=
    List.filter_eq_self.mpr hrem
  rw [List.filter_append, h1, h2, List.nil_append]

/-- The shape `trim_conversation` takes in its non-no-op branch. -/
theorem trim_not_noop_result (c : Conversation) (t : Option ℚ)
    (h0 : ¬ (c.total_tokens : ℚ) ≤ t.getD ((c.max_tokens : ℚ) * (3 / 4))) :
    trim_conversation c t =
      ({ c with
         messages := c.messages.filter (fun m => m.role == "system") ++
           (trimLoop (t.getD ((c.max_tokens : ℚ) * (3 / 4))) c.total_tokens
             (c.messages.filter (fun m => m.role != "system"))).2.1,
         total_tokens :=
           (trimLoop (t.getD ((c.max_tokens : ℚ) * (3 / 4))) c.total_tokens
             (c.messages.filter (fun m => m.role != "system"))).1 },
       (trimLoop (t.getD ((c.max_tokens : ℚ) * (3 / 4))) c.total_tokens
         (c.messages.filter (fun m => m.role != "system"))).2.2) := by
  simp only [trim_conversation]
  rw [if_neg h0]

/-- The no-op branch of `trim_conversation`. -/
theorem trim_noop_result (c : Conversation) (t : Option ℚ)
    (h0 : (c.total_tokens : ℚ) ≤ t.getD ((c.max_tokens : ℚ) * (3 / 4))) :
    trim_conversation c t = (c, 0) := by
  simp only [trim_conversation]
  rw [if_pos h0]

/-- C1: `trim` behaves exactly as specified: target defaults to
`0.75 * max_tokens`; it is a no-op returning 0 when `total_tokens` is
at/under target; otherwise it evicts the oldest non-system messages,
subtracting each removed message's token count (unknown treated as 0) from a
running total, stopping as soon as the running total is at/under target or
only 2 non-system messages remain, rebuilds the message list as all system
messages followed by the surviving non-system messages in order, sets
`total_tokens` to the running total and returns the removal count — i.e. the
code's `trim_conversation` coincides with the algorithm transcribed from the
claim (`trim_spec`) on every conversation and every target. -/
theorem trim_matches_spec : ∀ (c : Conversation) (t : Option ℚ),
    trim_conversation c t = trim_spec c t := by
  intro c t
  simp only [trim_conversation, trim_spec, trimLoop_eq_spec]
  rw [show ((c.max_tokens : ℚ) * (3 / 4)) = ((3 / 4 : ℚ) * (c.max_tokens : ℚ)) from
    mul_comm _ _]

/-- C2: trimming never removes a system message (the system sublist is
preserved exactly), the surviving non-system messages are a suffix of the
original ones (so the most recent are the ones retained), and at least
`min 2 n` of the `n` original non-system messages survive — in particular a
conversation with at least 2 non-system messages keeps at least 2. -/
theorem trim_preserves_system_and_recent : ∀ (c : Conversation) (t : Option ℚ),
    (trim_conversation c t).1.messages.filter (fun m => m.role == "system") =
      c.messages.filter (fun m => m.role == "system") ∧
    List.IsSuffix
      ((trim_conversation c t).1.messages.filter (fun m => m.role != "system"))
      (c.messages.filter (fun m => m.role != "system")) ∧
    min 2 (c.messages.filter (fun m => m.role != "system")).length ≤
      ((trim_conversation c t).1.messages.filter
        (fun m => m.role != "system")).length := by
  intro c t
  by_cases h0 : (c.total_tokens : ℚ) ≤ t.getD ((c.max_tokens : ℚ) * (3 / 4))
  · rw [trim_noop_result c t h0]
    exact ⟨rfl, List.suffix_refl _, min_le_right _ _⟩
  · rw [trim_not_noop_result c t h0]
    dsimp only
    have hdrop := trimLoop_drop (t.getD ((c.max_tokens : ℚ) * (3 / 4)))
      c.total_tokens (c.messages.filter (fun m => m.role != "system"))
    have hrem : ∀ m ∈ (trimLoop (t.getD ((c.max_tokens : ℚ) * (3 / 4)))
        c.total_tokens (c.messages.filter (fun m => m.role != "system"))).2.1,
        (m.role != "system") = true := by
      intro m hm
      rw [hdrop.1] at hm
      exact (List.mem_filter.mp (List.mem_of_mem_drop hm)).2
    refine ⟨rebuild_filter_sys _ _ hrem, ?_, ?_⟩
    · rw [rebuild_filter_nonsys _ _ hrem, hdrop.1]
      exact List.drop_suffix _ _
    · rw [rebuild_filter_nonsys _ _ hrem]
      exact trimLoop_min_len _ _ _

/-- C8: `trim` is idempotent — immediately after any `trim` call, a second
call with the same target removes 0 messages and returns the conversation
unchanged. -/
theorem trim_idempotent : ∀ (c : Conversation) (t : Option ℚ),
    trim_conversation (trim_conversation c t).1 t =
      ((trim_conversation c t).1, 0) := by
  intro c t
  by_cases h0 : (c.total_tokens : ℚ) ≤ t.getD ((c.max_tokens : ℚ) * (3 / 4))
  · rw [trim_noop_result c t h0]
    exact trim_noop_result c t h0
  · rw [trim_not_noop_result c t h0]
    dsimp only
    have hdrop := trimLoop_drop (t.getD ((c.max_tokens : ℚ) * (3 / 4)))
      c.total_tokens (c.messages.filter (fun m => m.role != "system"))
    have hrem : ∀ m ∈ (trimLoop (t.getD ((c.max_tokens : ℚ) * (3 / 4)))
        c.total_tokens (c.messages.filter (fun m => m.role != "system"))).2.1,
        (m.role != "system") = true := by
      intro m hm
      rw [hdrop.1] at hm
      exact (List.mem_filter.mp (List.mem_of_mem_drop hm)).2
    set fin := (trimLoop (t.getD ((c.max_tokens : ℚ) * (3 / 4))) c.total_tokens
      (c.messages.filter (fun m => m.role != "system"))).1 with hfin
    set rem := (trimLoop (t.getD ((c.max_tokens : ℚ) * (3 / 4))) c.total_tokens
      (c.messages.filter (fun m => m.role != "system"))).2.1 with hremdef
    by_cases h1 : (fin : ℚ) ≤ t.getD ((c.max_tokens : ℚ) * (3 / 4))
    · exact trim_noop_result _ t h1
    · have hlen : rem.length ≤ 2 := by
        rcases trimLoop_stop (t.getD ((c.max_tokens : ℚ) * (3 / 4)))
          c.total_tokens (c.messages.filter (fun m => m.role != "system")) with
          hc | hc
        · exact absurd hc h1
        · exact hc
      rw [trim_not_noop_result _ t h1]
      dsimp only
      rw [rebuild_filter_nonsys _ _ hrem, rebuild_filter_sys _ _ hrem]
      rw [trimLoop_noop _ _ _ (by
        intro hcontra
        exact absurd hcontra.2 (not_lt.mpr hlen))]

/-- Per-name characterisation of the availability loop. -/
theorem availLoop_iff (m : String) : ∀ (ns : List String),
    availLoop m ns = true ↔
      ((∃ n ∈ ns, pyStartsWith n (m ++ ":") = true) ∨
       (pyHasColon m = true ∧ (pySplitColonHead m ++ ":latest") ∈ ns)) := by
  intro ns
  induction ns with
  | nil => simp [availLoop]
  | cons name rest ih =>
    simp only [availLoop]
    by_cases h1 : pyStartsWith name (m ++ ":") = true
    · rw [if_pos h1]
      constructor
      · intro _
        exact Or.inl ⟨name, List.mem_cons_self _ _, h1⟩
      · intro _
        rfl
    · rw [if_neg h1]
      by_cases h2 : (pyHasColon m && (name == pySplitColonHead m ++ ":latest")) = true
      · rw [if_pos h2]
        rw [Bool.and_eq_true] at h2
        obtain ⟨hcol, hbeq⟩ := h2
        constructor
        · intro _
          refine Or.inr ⟨hcol, ?_⟩
          rw [← eq_of_beq hbeq]
          exact List.mem_cons_self _ _
        · intro _
          rfl
      · rw [if_neg h2]
        rw [ih]
        constructor
        · rintro (⟨n, hn, hs⟩ | ⟨hcol, hmem⟩)
          · exact Or.inl ⟨n, List.mem_cons_of_mem _ hn, hs⟩
          · exact Or.inr ⟨hcol, List.mem_cons_of_mem _ hmem⟩
        · rintro (⟨n, hn, hs⟩ | ⟨hcol, hmem⟩)
          · rcases List.mem_cons.mp hn with rfl | hn'
            · exact absurd hs h1
            · exact Or.inl ⟨n, hn', hs⟩
          · rcases List.mem_cons.mp hmem with heq | hmem'
            · exfalso
              apply h2
              rw [Bool.and_eq_true]
              exact ⟨hcol, beq_iff_eq.mpr heq.symm⟩
            · exact Or.inr ⟨hcol, hmem'⟩

/-- C3: `is_model_available` returns true iff one of the four branches holds
— exact match, `model_id + ":latest"` match, some daemon name starts with
`model_id + ":"`, or `model_id` contains a colon and its part before the
first colon followed by `":latest"` equals some daemon name (all comparisons
case-sensitive) — together with the three worked examples. -/
theorem is_model_available_cases :
    (∀ (model_id : String) (ns : List String),
      is_model_available model_id ns = true ↔
        (model_id ∈ ns ∨ (model_id ++ ":latest") ∈ ns ∨
         (∃ n ∈ ns, pyStartsWith n (model_id ++ ":") = true) ∨
         (pyHasColon model_id = true ∧
           (pySplitColonHead model_id ++ ":latest") ∈ ns))) ∧
    is_model_available "llama3.2:3b" ["llama3.2:3b:latest"] = true ∧
    is_model_available "llama3.2" ["llama3.2:latest"] = true ∧
    is_model_available "mistral:7b" ["phi3:3.8b"] = false := by
  refine ⟨?_, by decide, by decide, by decide⟩
  intro m ns
  simp only [is_model_available]
  by_cases hc1 : ns.contains m
  · rw [if_pos hc1]
    have hm : m ∈ ns := by simpa using hc1
    constructor
    · intro _
      exact Or.inl hm
    · intro _
      rfl
  · rw [if_neg hc1]
    have hm : ¬ m ∈ ns := by simpa using hc1
    by_cases hc2 : ns.contains (m ++ ":latest")
    · rw [if_pos hc2]
      have hml : (m ++ ":latest") ∈ ns := by simpa using hc2
      constructor
      · intro _
        exact Or.inr (Or.inl hml)
      · intro _
        rfl
    · rw [if_neg hc2]
      have hml : ¬ (m ++ ":latest") ∈ ns := by simpa using hc2
      rw [availLoop_iff]
      constructor
      · rintro (h | h)
        · exact Or.inr (Or.inr (Or.inl h))
        · exact Or.inr (Or.inr (Or.inr h))
      · rintro (h | h | h | h)
        · exact absurd h hm
        · exact absurd h hml
        · exact Or.inl h
        · exact Or.inr h

/-- C9: `estimate_tokens` is the pure function `len(text) // 4` (0 on empty
input); `check_prompt_size` sets `fits` iff the estimate is under 80% of the
context limit and reports `usage_percent = estimate / limit * 100`; and on a
4000-character prompt with context window 8192 the estimate is 1000 tokens,
it fits, and the usage is within 0.1 of 12.2 percent. -/
theorem estimate_and_check_fit :
    (∀ s : String, estimate_tokens s = s.length / 4) ∧
    estimate_tokens "" = 0 ∧
    (∀ (context_limit : Nat) (prompt : String),
      ((check_prompt_size context_limit prompt).fits = true ↔
        ((estimate_tokens prompt : ℚ) < (context_limit : ℚ) * (4 / 5))) ∧
      (check_prompt_size context_limit prompt).usage_percent =
        ((estimate_tokens prompt : ℚ) / (context_limit : ℚ)) * 100 ∧
      (check_prompt_size context_limit prompt).estimated_tokens =
        estimate_tokens prompt) ∧
    (check_prompt_size 8192 examplePrompt).estimated_tokens = 1000 ∧
    (check_prompt_size 8192 examplePrompt).fits = true ∧
    |(check_prompt_size 8192 examplePrompt).usage_percent - 61 / 5| <
      (1 : ℚ) / 10 := by
  have hest : estimate_tokens examplePrompt = 1000 := by
    show examplePrompt.length / 4 = 1000
    have h : examplePrompt.length = 4000 := by
      show (List.replicate 4000 'a').length = 4000
      rw [List.length_replicate]
    rw [h]
  have hfield1 : ∀ (L : Nat) (p : String),
      (check_prompt_size L p).estimated_tokens = estimate_tokens p :=
    fun _ _ => rfl
  have hfield2 : ∀ (L : Nat) (p : String), (check_prompt_size L p).fits =
      decide ((estimate_tokens p : ℚ) < (L : ℚ) * (4 / 5)) :=
    fun _ _ => rfl
  have hfield3 : ∀ (L : Nat) (p : String), (check_prompt_size L p).usage_percent =
      ((estimate_tokens p : ℚ) / (L : ℚ)) * 100 :=
    fun _ _ => rfl
  refine ⟨fun s => rfl, rfl, ?_, ?_, ?_, ?_⟩
  · intro L p
    refine ⟨?_, rfl, rfl⟩
    simp [check_prompt_size]
  · rw [hfield1 8192 examplePrompt, hest]
  · rw [hfield2 8192 examplePrompt, hest]
    norm_num
  · rw [hfield3 8192 examplePrompt, hest]
    rw [abs_sub_lt_iff]
    constructor <;> norm_num

/-- C10: a freshly created conversation contains exactly one message, of role
`system`, whose content is the supplied prompt when non-empty and the default
persona otherwise; an empty-string prompt is replaced by the default exactly
as an omitted one is. -/
theorem create_initial_system_message :
    ∀ (model_id : String) (title : Option String) (sp : Option String)
      (max_tokens : Int) (cid mid : String) (now : DateTime) (s : String),
      s ≠ "" →
      ((create_conversation model_id title sp max_tokens cid mid now).messages =
        [{ id := mid, role := "system", content := effective_system_prompt sp,
           timestamp := now }] ∧
       effective_system_prompt none = default_system_prompt ∧
       effective_system_prompt (some "") = default_system_prompt ∧
       effective_system_prompt (some s) = s) := by
  intro model_id title sp max_tokens cid mid now s hs
  have hne : effective_system_prompt sp ≠ "" := by
    cases sp with
    | none =>
      show default_system_prompt ≠ ""
      decide
    | some s' =>
      by_cases h' : s' = ""
      · simp only [effective_system_prompt, if_pos h']
        decide
      · simp only [effective_system_prompt, if_neg h']
        exact h'
  refine ⟨?_, rfl, by simp [effective_system_prompt],
    by simp [effective_system_prompt, hs]⟩
  simp only [create_conversation]
  rw [if_neg hne]

/-- Witness for C10 at concrete inputs. -/
theorem create_initial_system_message_witness :
    (create_conversation "llama3.2:3b" none none 8192 "c9" "w0" d0).messages =
      [{ id := "w0", role := "system", content := effective_system_prompt none,
         timestamp := d0 }] ∧
    effective_system_prompt none = default_system_prompt ∧
    effective_system_prompt (some "") = default_system_prompt ∧
    effective_system_prompt (some "Be terse.") = "Be terse." :=
  create_initial_system_message "llama3.2:3b" none none 8192 "c9" "w0" d0
    "Be terse." (by decide)

/-- C6: evaluation of the code at the failing input.  On a missing or
malformed backing store `load_config` RETURNS the built-in default catalog
but does not assign `self._config_data` (which `__init__` left as `None`),
so every later catalog operation — listing enabled models, lookup by id,
getting the default model — raises `AttributeError` instead of answering
from the default catalog; the last conjunct shows the accessors only work
once `config_data` is set by a successful load. -/
theorem config_load_failure_breaks_catalog :
    (initManager "config/models.json" .fileNotFound).config_data = none ∧
    (initManager "config/models.json" .jsonDecodeError).config_data = none ∧
    (load_config ⟨"config/models.json", none⟩ .fileNotFound).2 = default_config ∧
    (load_config ⟨"config/models.json", none⟩ .jsonDecodeError).2 =
      default_config ∧
    get_default_model (initManager "config/models.json" .fileNotFound) =
      .error .attributeError ∧
    get_enabled_models (initManager "config/models.json" .fileNotFound) =
      .error .attributeError ∧
    get_model_by_id (initManager "config/models.json" .fileNotFound)
      "llama3.2:3b" = .error .attributeError ∧
    (∀ (d : ConfigData),
      get_default_model (initManager "config/models.json" (.ok d)) =
        .ok (d.default_model.getD "llama3.2:3b")) :=
  ⟨rfl, rfl, rfl, rfl, rfl, rfl, rfl, fun _ => rfl⟩

/-- C7 counterexample: a trim call that removes a message (count 1, message
list changed) yet leaves `updated_at` untouched — `trim_conversation` never
reads a clock, so `updated_at` is not refreshed on trim, contrary to the
claim. -/
theorem trim_does_not_refresh_updated_at :
    (trim_conversation trimDemo (some 50)).2 = 1 ∧
    (trim_conversation trimDemo (some 50)).1.messages ≠ trimDemo.messages ∧
    (trim_conversation trimDemo (some 50)).1.updated_at = trimDemo.updated_at :=
  ⟨by decide, by decide, by decide⟩

/-- C7 (amended): `updated_at` is set to the current time by `add_message`
and by the title rename, `create` starts with `updated_at = created_at`, and
`updated_at >= created_at` is maintained under a non-decreasing clock — but
`trim` leaves both `updated_at` and `created_at` unchanged rather than
refreshing `updated_at`. -/
theorem updated_at_behavior :
    ∀ (c : Conversation) (role content ti : String) (tc : Option Int)
      (md : Option Metadata) (mid : String) (ts now : DateTime) (t : Option ℚ),
      ((add_message c role content tc md mid ts now).1.updated_at = now ∧
       (add_message c role content tc md mid ts now).1.created_at =
         c.created_at) ∧
      ((update_conversation_title c ti now).updated_at = now ∧
       (update_conversation_title c ti now).created_at = c.created_at) ∧
      ((trim_conversation c t).1.updated_at = c.updated_at ∧
       (trim_conversation c t).1.created_at = c.created_at) ∧
      (∀ (model_id : String) (otitle osp : Option String) (mt : Int)
         (cid mid2 : String),
        (create_conversation model_id otitle osp mt cid mid2 now).updated_at =
          (create_conversation model_id otitle osp mt cid mid2 now).created_at) ∧
      (c.created_at.key ≤ c.updated_at.key → c.created_at.key ≤ now.key →
        ((add_message c role content tc md mid ts now).1.created_at.key ≤
           (add_message c role content tc md mid ts now).1.updated_at.key ∧
         (update_conversation_title c ti now).created_at.key ≤
           (update_conversation_title c ti now).updated_at.key ∧
         (trim_conversation c t).1.created_at.key ≤
           (trim_conversation c t).1.updated_at.key)) := by
  intro c role content ti tc md mid ts now t
  have hadd : (add_message c role content tc md mid ts now).1.updated_at = now ∧
      (add_message c role content tc md mid ts now).1.created_at =
        c.created_at := by
    simp only [add_message]
    by_cases h : pyTruthy tc = true
    · rw [if_pos h]
      exact ⟨rfl, rfl⟩
    · rw [if_neg h]
      exact ⟨rfl, rfl⟩
  have htrim : (trim_conversation c t).1.updated_at = c.updated_at ∧
      (trim_conversation c t).1.created_at = c.created_at := by
    by_cases h0 : (c.total_tokens : ℚ) ≤ t.getD ((c.max_tokens : ℚ) * (3 / 4))
    · rw [trim_noop_result c t h0]
      exact ⟨rfl, rfl⟩
    · rw [trim_not_noop_result c t h0]
      exact ⟨rfl, rfl⟩
  have hcreate : ∀ (model_id : String) (otitle osp : Option String) (mt : Int)
      (cid mid2 : String),
      (create_conversation model_id otitle osp mt cid mid2 now).updated_at =
        (create_conversation model_id otitle osp mt cid mid2 now).created_at := by
    intro model_id otitle osp mt cid mid2
    simp only [create_conversation]
    by_cases h : effective_system_prompt osp = ""
    · rw [if_pos h]
    · rw [if_neg h]
  refine ⟨hadd, ⟨rfl, rfl⟩, htrim, hcreate, ?_⟩
  intro h1 h2
  refine ⟨?_, ?_, ?_⟩
  · rw [hadd.1, hadd.2]
    exact h2
  · exact h2
  · rw [htrim.1, htrim.2]
    exact h1

/-- Witness for the amended C7 at concrete inputs. -/
theorem updated_at_behavior_witness :
    (add_message trimDemo "user" "hi" (some 5) none "w9" d1 d1).1.created_at.key ≤
      (add_message trimDemo "user" "hi" (some 5) none "w9" d1 d1).1.updated_at.key ∧
    (update_conversation_title trimDemo "new title" d1).created_at.key ≤
      (update_conversation_title trimDemo "new title" d1).updated_at.key ∧
    (trim_conversation trimDemo (some 50)).1.created_at.key ≤
      (trim_conversation trimDemo (some 50)).1.updated_at.key :=
  (updated_at_behavior trimDemo "user" "hi" "new title" (some 5) none "w9" d1 d1
    (some 50)).2.2.2.2 (by decide) (by decide)

/-- One `add_message` call preserves the token-sum invariant: the total grows
by the new message's known count (None and 0 both contribute nothing). -/
theorem applyAdd_preserves (c : Conversation) (a : AddCall)
    (h : c.total_tokens = sumTokens c.messages) :
    (applyAdd c a).total_tokens = sumTokens (applyAdd c a).messages := by
  simp only [applyAdd, add_message]
  cases htc : a.token_count with
  | none =>
    rw [if_neg (by simp [pyTruthy, htc])]
    simp [sumTokens, tokenOr0, htc, h]
  | some n =>
    by_cases hn : n = 0
    · rw [if_neg (by simp [pyTruthy, htc, hn])]
      simp [sumTokens, tokenOr0, htc, hn, h]
    · rw [if_pos (by simp [pyTruthy, htc, hn])]
      simp [sumTokens, tokenOr0, htc, h]

/-- C4: `total_tokens` always equals the sum of the known `token_count`
fields (unknown counts contribute 0): creation establishes the invariant and
every sequence of `add_message` calls preserves it. -/
theorem total_tokens_invariant :
    (∀ (model_id : String) (title sp : Option String) (mt : Int)
       (cid mid : String) (now : DateTime),
       (create_conversation model_id title sp mt cid mid now).total_tokens =
         sumTokens (create_conversation model_id title sp mt cid mid now).messages) ∧
    (∀ (c : Conversation) (calls : List AddCall),
       c.total_tokens = sumTokens c.messages →
       (applyAdds c calls).total_tokens =
         sumTokens (applyAdds c calls).messages) := by
  constructor
  · intro model_id title sp mt cid mid now
    simp only [create_conversation]
    by_cases h : effective_system_prompt sp = ""
    · rw [if_pos h]
      simp [sumTokens]
    · rw [if_neg h]
      simp [sumTokens, tokenOr0]
  · intro c calls
    induction calls generalizing c with
    | nil => exact fun h => h
    | cons a rest ih =>
      intro h
      exact ih _ (applyAdd_preserves c a h)

/-- Witness for C4 at concrete inputs. -/
theorem total_tokens_invariant_witness :
    (applyAdds trimDemo addCallsDemo).total_tokens =
      sumTokens (applyAdds trimDemo addCallsDemo).messages :=
  total_tokens_invariant.2 trimDemo addCallsDemo (by decide)

/-- Reading the character a decimal digit prints gives the digit back. -/
theorem readDigit_digitChar {d : Nat} (h : d < 10) :
    readDigit (digitChar d) = some d := by
  interval_cases d <;> decide

/-- Parsing `w` fixed digits inverts `w`-wide zero padding. -/
theorem readFixed_padDigits : ∀ (w acc n : Nat) (rest : List Char),
    n < 10 ^ w →
    readFixed w acc (padDigits w n ++ rest) = some (acc * 10 ^ w + n, rest) := by
  intro w
  induction w with
  | zero =>
    intro acc n rest h
    have hn : n = 0 := by omega
    subst hn
    simp [padDigits, readFixed]
  | succ w ih =>
    intro acc n rest h
    have h10 : (0 : Nat) < 10 ^ w := Nat.pos_pow_of_pos w (by norm_num)
    have hd : n / 10 ^ w < 10 := by
      rw [Nat.div_lt_iff_lt_mul h10]
      have hps : (10 : Nat) ^ (w + 1) = 10 ^ w * 10 := pow_succ 10 w
      omega
    simp only [padDigits, List.cons_append, readFixed]
    rw [readDigit_digitChar hd]
    show readFixed w (acc * 10 + n / 10 ^ w) (padDigits w (n % 10 ^ w) ++ rest) =
      some (acc * 10 ^ (w + 1) + n, rest)
    rw [ih _ _ _ (Nat.mod_lt _ h10)]
    have key : ∀ (P q r nn a : Nat), P * q + r = nn →
        (a * 10 + q) * P + r = a * (P * 10) + nn := by
      intro P q r nn a hqr
      subst hqr
      ring
    rw [key (10 ^ w) (n / 10 ^ w) (n % 10 ^ w) n acc (Nat.div_add_mod n (10 ^ w))]
    rw [pow_succ]

/-- `readFixed_padDigits` at the end of the input. -/
theorem readFixed_padDigits_nil (w acc n : Nat) (h : n < 10 ^ w) :
    readFixed w acc (padDigits w n) = some (acc * 10 ^ w + n, []) := by
  have := readFixed_padDigits w acc n [] h
  simpa using this

/-- `expect` consumes the separator it is given. -/
theorem expect_cons (ch : Char) (rest : List Char) :
    expect ch (ch :: rest) = some rest := by
  simp [expect]

/-- The character stream `isoformat` emits, in parser-friendly shape. -/
theorem isoformat_toList (d : DateTime) :
    (d.isoformat).toList =
      padDigits 4 d.year ++ '-' :: (padDigits 2 d.month ++ '-' ::
        (padDigits 2 d.day ++ 'T' :: (padDigits 2 d.hour ++ ':' ::
          (padDigits 2 d.minute ++ ':' :: (padDigits 2 d.second ++
            (if d.microsecond = 0 then [] else
              '.' :: padDigits 6 d.microsecond)))))) := by
  show (d.isoformat).data = _
  simp only [DateTime.isoformat, padNum, String.data_append]
  by_cases h : d.microsecond = 0
  · rw [if_pos h, if_pos h]
    simp [String.data_append]
  · rw [if_neg h, if_neg h]
    simp [String.data_append]

set_option maxHeartbeats 1600000 in
/-- Python's documented round-trip: `fromisoformat` inverts `isoformat` on
every in-range datetime. -/
theorem fromisoformat_isoformat (d : DateTime) (hv : d.Valid) :
    DateTime.fromisoformat d.isoformat = some d := by
  obtain ⟨y, mo, da, hh, mi, ss, us⟩ := d
  obtain ⟨h1, h2, h3, h4, h5, h6, h7, h8, h9, h10⟩ := hv
  have hy : y < 10 ^ 4 := by norm_num at *; omega
  have hmo : mo < 10 ^ 2 := by norm_num at *; omega
  have hda : da < 10 ^ 2 := by norm_num at *; omega
  have hhh : hh < 10 ^ 2 := by norm_num at *; omega
  have hmi : mi < 10 ^ 2 := by norm_num at *; omega
  have hss : ss < 10 ^ 2 := by norm_num at *; omega
  have hus : us < 10 ^ 6 := by norm_num at *; omega
  unfold DateTime.fromisoformat
  rw [isoformat_toList]
  dsimp only
  by_cases hz : us = 0
  · rw [if_pos hz]
    simp only [parseIso, Option.bind_eq_bind, Option.some_bind,
      readFixed_padDigits, readFixed_padDigits_nil, expect_cons,
      hy, hmo, hda, hhh, hmi, hss, hus,
      Nat.zero_mul, Nat.zero_add]
    rw [hz]
  · rw [if_neg hz]
    simp only [parseIso, Option.bind_eq_bind, Option.some_bind,
      readFixed_padDigits, readFixed_padDigits_nil, expect_cons,
      hy, hmo, hda, hhh, hmi, hss, hus,
      Nat.zero_mul, Nat.zero_add, if_true]

/-- Message-level round trip. -/
theorem from_to_message (m : ChatMessage) (h : m.timestamp.Valid) :
    ChatMessage.from_dict m.to_dict = some m := by
  simp only [ChatMessage.to_dict, ChatMessage.from_dict,
    fromisoformat_isoformat _ h, Option.bind_eq_bind, Option.some_bind]

/-- Message-list round trip. -/
theorem mapM_from_to (ms : List ChatMessage)
    (h : ∀ m ∈ ms, m.timestamp.Valid) :
    (ms.map ChatMessage.to_dict).mapM ChatMessage.from_dict = some ms := by
  induction ms with
  | nil => rfl
  | cons m rest ih =>
    simp only [List.map_cons, List.mapM_cons,
      from_to_message m (h m (List.mem_cons_self _ _)),
      ih (fun x hx => h x (List.mem_cons_of_mem _ hx)),
      Option.bind_eq_bind, Option.some_bind, Option.pure_def]

/-- Conversation-level round trip. -/
theorem from_to_conversation (c : Conversation) (h : c.ValidTimes) :
    Conversation.from_dict c.to_dict = some c := by
  obtain ⟨hca, hua, hmsgs⟩ := h
  simp only [Conversation.to_dict, Conversation.from_dict,
    fromisoformat_isoformat _ hca, fromisoformat_isoformat _ hua,
    mapM_from_to _ hmsgs, Option.bind_eq_bind, Option.some_bind]

/-- C5: export followed by import reproduces an identical conversation —
`export_conversation` emits the stored conversation's snapshot, `from_dict`
rebuilds exactly the same `Conversation` (same id, title, model, timestamps,
token totals, prompt and the same ordered messages with identical fields),
and `import_conversation` stores that identical conversation under its
original id. -/
theorem export_import_roundtrip :
    ∀ (s s2 : ConvStore) (cid : String) (c : Conversation),
      storeGet s cid = some c → c.ValidTimes →
      export_conversation s cid = some c.to_dict ∧
      Conversation.from_dict c.to_dict = some c ∧
      import_conversation s2 c.to_dict = some (c.id, storeInsert s2 c.id c) := by
  intro s s2 cid c hget hv
  refine ⟨?_, from_to_conversation c hv, ?_⟩
  · simp [export_conversation, hget]
  · simp [import_conversation, from_to_conversation c hv]

/-- Witness for C5 at a concrete store and conversation. -/
theorem export_import_roundtrip_witness :
    export_conversation storeDemo "conv-2" = some roundtripDemo.to_dict ∧
    Conversation.from_dict roundtripDemo.to_dict = some roundtripDemo ∧
    import_conversation [] roundtripDemo.to_dict =
      some (roundtripDemo.id, storeInsert [] roundtripDemo.id roundtripDemo) :=
  export_import_roundtrip storeDemo [] "conv-2" roundtripDemo
    (by decide) (by decide)

end OnDevice
